import Mathlib

/-
Shallow embedding of the self-assessment workflow of
src/common/lib/xmodule/xmodule/self_assessment_module.py
(class SelfAssessmentModule and class SelfAssessmentDescriptor).

The module inherits from openendedchild.OpenEndedChild, whose file is not
part of the excerpt; the inherited helpers (state constants, history
operations, out_of_sync_error, _allow_reset, get_progress) are modelled
from the spec, each marked with a doc comment starting
"Modelled from the spec:".
-/

/-- Modelled from the spec: WorkflowState constant INITIAL, inherited from
OpenEndedChild (not in the excerpt); the spec fixes four distinct state
values INITIAL, ASSESSING, POST_ASSESSMENT, DONE. -/
def INITIAL : String := "initial"

/-- Modelled from the spec: WorkflowState constant ASSESSING. -/
def ASSESSING : String := "assessing"

/-- Modelled from the spec: WorkflowState constant POST_ASSESSMENT. -/
def POST_ASSESSMENT : String := "post_assessment"

/-- Modelled from the spec: WorkflowState constant DONE. -/
def DONE : String := "done"

/-- One entry of the History Store: answer text, optional self-assigned
score, optional hint text (spec section 3, AttemptRecord). -/
structure AttemptRecord where
  answer : String
  score : Option Int
  hint : Option String
deriving Repr, DecidableEq

/-- The per-student, per-problem instance state of SelfAssessmentModule:
the mutable attributes read and written by the methods under proof
(self.state, self.history, self.attempts, self.max_attempts,
self._max_score, plus the configuration texts set in setup_response). -/
structure SelfAssessmentModule where
  state : String
  history : List AttemptRecord
  attempts : Nat
  max_attempts : Nat
  max_score : Int
  submit_message : String
  hint_prompt : String
deriving Repr, DecidableEq

/-- The request payload: the POST dictionary handed to handlers as `get`. -/
abbrev Payload := List (String × String)

/-- A Python exception escaping a handler: KeyError from a missing payload
key, or an uncaught ValueError (the illegal-state raise). -/
inductive PyErr where
  | keyError (key : String)
  | valueError (msg : String)
deriving Repr, DecidableEq

/-- Abstraction of the rendered rubric view: the empty string returned in
INITIAL, or the rendered template with its context (read_only flag and
max_score), rendering itself being an external collaborator. -/
inductive RubricHtml where
  | empty
  | rendered (read_only : Bool) (max_score : Int)
deriving Repr, DecidableEq

/-- Abstraction of the rendered hint view: the empty string returned in
INITIAL/ASSESSING, or the rendered template with its context. -/
inductive HintHtml where
  | empty
  | rendered (hint_prompt : String) (hint : String) (read_only : Bool)
deriving Repr, DecidableEq

/-- The result dictionary a handler returns. Python builds dicts with a
subset of these keys; absent keys are `none` here. -/
structure AjaxDict where
  success : Bool
  error : Option String
  rubric_html : Option RubricHtml
  hint_html : Option HintHtml
  message_html : Option String
  allow_reset : Option Bool
  state : Option String
deriving Repr, DecidableEq

/-- A dictionary whose only key is success, with the given value. -/
def onlySuccess (b : Bool) : AjaxDict :=
  { success := b, error := none, rubric_html := none, hint_html := none,
    message_html := none, allow_reset := none, state := none }

/-- Modelled from the spec: OpenEndedChild.new_history_entry (not in the
excerpt); History Store append(answer) creates a new AttemptRecord with
the given answer and unset score/hint (spec sections 4.1 and 4.2). -/
def new_history_entry (m : SelfAssessmentModule) (answer : String) :
    SelfAssessmentModule :=
  { m with history :=
      m.history ++ [{ answer := answer, score := none, hint := none }] }

/-- Update the last element of a list, if any (helper for the two
set-latest operations of the History Store). -/
def set_last (f : AttemptRecord → AttemptRecord) :
    List AttemptRecord → List AttemptRecord
  | [] => []
  | [r] => [f r]
  | r :: rs => r :: set_last f rs

/-- Modelled from the spec: OpenEndedChild.record_latest_score (not in the
excerpt); History Store set_latest_score(score) sets the score field on
the most recent AttemptRecord (spec section 4.2). -/
def record_latest_score (m : SelfAssessmentModule) (score : Int) :
    SelfAssessmentModule :=
  { m with history := set_last (fun r => { r with score := some score }) m.history }

/-- Modelled from the spec: OpenEndedChild.record_latest_post_assessment
(not in the excerpt); History Store set_latest_hint(hint) sets the hint
field on the most recent AttemptRecord (spec section 4.2). -/
def record_latest_post_assessment (m : SelfAssessmentModule) (hint : String) :
    SelfAssessmentModule :=
  { m with history := set_last (fun r => { r with hint := some hint }) m.history }

/-- Modelled from the spec: OpenEndedChild.latest_post_assessment (not in
the excerpt); History Store latest_hint() returns the most recent set hint
value, or none if absent (spec section 4.2). -/
def latest_post_assessment (m : SelfAssessmentModule) : Option String :=
  m.history.reverse.findSome? (fun r => r.hint)

/-- Modelled from the spec: OpenEndedChild.change_state (not in the
excerpt); transitions assign the new WorkflowState (spec section 4.1). -/
def change_state (m : SelfAssessmentModule) (new_state : String) :
    SelfAssessmentModule :=
  { m with state := new_state }

/-- Modelled from the spec: OpenEndedChild.out_of_sync_error (not in the
excerpt); an out-of-order action is rejected as a distinct out-of-sync
outcome, a structured result with success false and an error message,
never a raise, with no state mutation (spec sections 4.1 and 7). -/
def out_of_sync_error (m : SelfAssessmentModule) (get : Payload) : AjaxDict :=
  { success := false,
    error := some "The problem state got out-of-sync. Please try reloading the page.",
    rubric_html := none, hint_html := none, message_html := none,
    allow_reset := none, state := none }

/-- Modelled from the spec: OpenEndedChild private helper behind
allow_reset; reset eligibility is true only when state is DONE and
attempts < max_attempts (spec section 4.1). -/
def _allow_reset (m : SelfAssessmentModule) : Bool :=
  decide (m.state = DONE ∧ m.attempts < m.max_attempts)

/-- Modelled from the spec: the Progress Tracker derives a coarse
completion status (none / in_progress / done) from current state and
attempt count (spec section 2). -/
def get_progress (m : SelfAssessmentModule) : String :=
  if m.state = DONE then "done"
  else if m.state = INITIAL ∧ m.attempts = 0 then "none"
  else "in_progress"

/-- Modelled from the spec: Progress.to_js_status_str serializes progress
as one of a small closed set of status strings (spec section 6); the
tracker output above is already one of those strings. -/
def to_js_status_str (p : String) : String := p

/-- Decimal digits of a numeral, most significant first, to a Nat. -/
def digitsToNat (l : List Char) : Nat :=
  l.foldl (fun n c => 10 * n + (c.toNat - 48)) 0

/-- Surrounding whitespace stripped from a character list. -/
def stripChars (l : List Char) : List Char :=
  ((l.dropWhile Char.isWhitespace).reverse.dropWhile Char.isWhitespace).reverse

/-- Modelled from the spec: the Python builtin int() applied to a string
(used by save_assessment): strips surrounding whitespace, accepts an
optional sign followed by one or more decimal digits, and raises
ValueError otherwise (here: none). -/
def pyInt (s : String) : Option Int :=
  let digits : List Char → Option Int := fun l =>
    if l.isEmpty then none
    else if l.all Char.isDigit then some (digitsToNat l : Int) else none
  match stripChars s.toList with
  | '-' :: rest => (digits rest).map (fun n => -n)
  | '+' :: rest => digits rest
  | l => digits l

/-- get_rubric_html: empty in INITIAL; otherwise renders the rubric with
read_only false in ASSESSING, read_only true in POST_ASSESSMENT or DONE;
any other state raises ValueError. -/
def get_rubric_html (m : SelfAssessmentModule) : Except String RubricHtml :=
  if m.state = INITIAL then Except.ok RubricHtml.empty
  else if m.state = ASSESSING then
    Except.ok (RubricHtml.rendered false m.max_score)
  else if m.state = POST_ASSESSMENT ∨ m.state = DONE then
    Except.ok (RubricHtml.rendered true m.max_score)
  else Except.error ("Illegal state " ++ m.state)

/-- get_hint_html: empty in INITIAL or ASSESSING; otherwise renders the
hint view (in DONE displaying the previous hint) with read_only false in
POST_ASSESSMENT and true in DONE; any other state raises ValueError. -/
def get_hint_html (m : SelfAssessmentModule) : Except String HintHtml :=
  if m.state = INITIAL ∨ m.state = ASSESSING then Except.ok HintHtml.empty
  else
    let hint : String :=
      if m.state = DONE then (latest_post_assessment m).getD "" else ""
    if m.state = POST_ASSESSMENT then
      Except.ok (HintHtml.rendered m.hint_prompt hint false)
    else if m.state = DONE then
      Except.ok (HintHtml.rendered m.hint_prompt hint true)
    else Except.error ("Illegal state " ++ m.state)

/-- get_message_html: empty unless state is DONE, in which case the
submit message wrapped in the save_message div. -/
def get_message_html (m : SelfAssessmentModule) : String :=
  if m.state ≠ DONE then ""
  else "<div class=\x22save_message\x22>" ++ m.submit_message ++ "</div>"

/-- save_answer: blocks when attempts exceed max_attempts; rejects as
out-of-sync outside INITIAL; otherwise appends a new history entry with
the posted student_answer, transitions to ASSESSING and returns the
rubric view. A missing student_answer key is a KeyError. -/
def save_answer (m : SelfAssessmentModule) (get : Payload) :
    Except PyErr (SelfAssessmentModule × AjaxDict) :=
  if m.attempts > m.max_attempts then
    Except.ok (m, { onlySuccess false with error := some "Too many attempts." })
  else if m.state ≠ INITIAL then
    Except.ok (m, out_of_sync_error m get)
  else
    match get.lookup "student_answer" with
    | none => Except.error (PyErr.keyError "student_answer")
    | some ans =>
      let m1 := change_state (new_history_entry m ans) ASSESSING
      match get_rubric_html m1 with
      | Except.error e => Except.error (PyErr.valueError e)
      | Except.ok r =>
        Except.ok (m1, { onlySuccess true with rubric_html := some r })

/-- save_assessment: rejects as out-of-sync outside ASSESSING; a
non-integer assessment value is a validation failure; otherwise records
the score on the latest history entry and transitions to DONE when the
score equals max_score (returning the message view and reset
eligibility) and to POST_ASSESSMENT otherwise (returning the hint view),
reporting the new state. A missing assessment key is a KeyError. -/
def save_assessment (m : SelfAssessmentModule) (get : Payload) :
    Except PyErr (SelfAssessmentModule × AjaxDict) :=
  if m.state ≠ ASSESSING then
    Except.ok (m, out_of_sync_error m get)
  else
    match get.lookup "assessment" with
    | none => Except.error (PyErr.keyError "assessment")
    | some a =>
      match pyInt a with
      | none =>
        Except.ok (m, { onlySuccess false with error := some "Non-integer score value" })
      | some score =>
        let m1 := record_latest_score m score
        if score = m1.max_score then
          let m2 := change_state m1 DONE
          Except.ok (m2, { onlySuccess true with
            message_html := some (get_message_html m2),
            allow_reset := some ( _allow_reset m2),
            state := some m2.state })
        else
          let m2 := change_state m1 POST_ASSESSMENT
          match get_hint_html m2 with
          | Except.error e => Except.error (PyErr.valueError e)
          | Except.ok h =>
            Except.ok (m2, { onlySuccess true with
              hint_html := some h,
              state := some m2.state })

/-- save_hint: rejects as out-of-sync outside POST_ASSESSMENT; otherwise
records the posted hint on the latest history entry, transitions to DONE
and returns the message view and reset eligibility. A missing hint key
is a KeyError. -/
def save_hint (m : SelfAssessmentModule) (get : Payload) :
    Except PyErr (SelfAssessmentModule × AjaxDict) :=
  if m.state ≠ POST_ASSESSMENT then
    Except.ok (m, out_of_sync_error m get)
  else
    match get.lookup "hint" with
    | none => Except.error (PyErr.keyError "hint")
    | some h =>
      let m1 := change_state (record_latest_post_assessment m h) DONE
      Except.ok (m1, { onlySuccess true with
        message_html := some (get_message_html m1),
        allow_reset := some ( _allow_reset m1) })

/-- The response handle_ajax produces: the bare string returned for an
unknown dispatch, or the handler dictionary augmented with the
progress_changed flag and the progress status string (its json.dumps
serialization being external). -/
inductive AjaxResponse where
  | raw (s : String)
  | envelope (d : AjaxDict) (progress_changed : Bool) (progress_status : String)
deriving Repr, DecidableEq

/-- handle_ajax: dispatches on the action name over the fixed handlers
table; an unknown name returns the bare rejection. Otherwise the
handler runs between two progress computations and its dictionary is
extended with progress_changed and progress_status. -/
def handle_ajax (m : SelfAssessmentModule) (dispatch : String) (get : Payload) :
    Except PyErr (SelfAssessmentModule × AjaxResponse) :=
  if dispatch ≠ "save_answer" ∧ dispatch ≠ "save_assessment" ∧
      dispatch ≠ "save_post_assessment" then
    Except.ok (m, AjaxResponse.raw "Error")
  else
    let handler : SelfAssessmentModule → Payload →
        Except PyErr (SelfAssessmentModule × AjaxDict) :=
      if dispatch = "save_answer" then save_answer
      else if dispatch = "save_assessment" then save_assessment
      else save_hint
    let before := get_progress m
    match handler m get with
    | Except.error e => Except.error e
    | Except.ok (m1, d) =>
      let after := get_progress m1
      Except.ok (m1, AjaxResponse.envelope d
        (decide (after ≠ before)) (to_js_status_str after))

/-- A child element of the selfassessment XML definition, abstracting an
lxml element as its tag and its serialized content. -/
structure XmlChild where
  tag : String
  body : String
deriving Repr, DecidableEq

/-- xml_object.xpath(tag): the children carrying the given tag. -/
def xpath (xml : List XmlChild) (t : String) : List XmlChild :=
  xml.filter (fun c => c.tag = t)

/-- The dictionary definition_from_xml returns: exactly the submitmessage
and hintprompt fields. -/
structure SADefinition where
  submitmessage : String
  hintprompt : String
deriving Repr, DecidableEq

/-- Modelled from the spec: stringify_children (xmodule.stringify, not in
the excerpt) serializes the content of an element; here the abstract
body text. -/
def stringify_children (c : XmlChild) : String := c.body

/-- SelfAssessmentDescriptor.definition_from_xml: requires exactly one
submitmessage child and exactly one hintprompt child, raising ValueError
otherwise, and returns the dictionary of their stringified contents. -/
def definition_from_xml (xml : List XmlChild) : Except String SADefinition :=
  if (xpath xml "submitmessage").length ≠ 1 then
    Except.error "Self assessment definition must include exactly one submitmessage tag"
  else if (xpath xml "hintprompt").length ≠ 1 then
    Except.error "Self assessment definition must include exactly one hintprompt tag"
  else
    Except.ok
      { submitmessage :=
          ((xpath xml "submitmessage").head?.map stringify_children).getD "",
        hintprompt :=
          ((xpath xml "hintprompt").head?.map stringify_children).getD "" }

theorem set_last_append (f : AttemptRecord → AttemptRecord)
    (hs : List AttemptRecord) (r : AttemptRecord) :
    set_last f (hs ++ [r]) = hs ++ [f r] := by
  induction hs with
  | nil => rfl
  | cons a tl ih =>
    cases tl with
    | nil => rfl
    | cons b tl2 =>
      simp only [List.cons_append] at ih ⊢
      show a :: set_last f (b :: (tl2 ++ [r])) = a :: (b :: (tl2 ++ [f r]))
      rw [ih]

/-- C10: in save_answer the attempt-limit guard runs before the state
check: whenever attempts > max_attempts the call returns the
too-many-attempts failure and leaves the module untouched, whatever the
current state. -/
theorem save_answer_limit_guard_first (m : SelfAssessmentModule) (g : Payload)
    (h : m.attempts > m.max_attempts) :
    save_answer m g =
      Except.ok (m, { onlySuccess false with error := some "Too many attempts." }) := by
  simp [save_answer, h]

/-- C4: in state INITIAL with attempts within the limit, save_answer with
a student_answer payload succeeds, transitions to ASSESSING and appends
exactly one AttemptRecord carrying the answer with unset score and hint,
leaving every existing record in place. -/
theorem save_answer_initial_appends (m : SelfAssessmentModule) (g : Payload)
    (ans : String) (hatt : m.attempts ≤ m.max_attempts)
    (hstate : m.state = INITIAL) (hg : g.lookup "student_answer" = some ans) :
    ∃ d, save_answer m g =
        Except.ok ({ m with
          state := ASSESSING,
          history := m.history ++ [{ answer := ans, score := none, hint := none }] }, d) ∧
      d.success = true := by
  have hatt2 : ¬ m.attempts > m.max_attempts := Nat.not_lt.mpr hatt
  refine ⟨{ onlySuccess true with
    rubric_html := some (RubricHtml.rendered false m.max_score) }, ?_, rfl⟩
  simp [save_answer, get_rubric_html, change_state, new_history_entry,
    hatt2, hstate, hg, INITIAL, ASSESSING]

/-- C1: each of save_answer, save_assessment and save_hint, invoked while
the state differs from its required precondition state (INITIAL,
ASSESSING, POST_ASSESSMENT respectively), returns success false and
leaves the module (WorkflowState and History Store) unchanged; in
particular save_hint repeated in DONE is rejected as out-of-sync. -/
theorem wrong_state_rejected (m : SelfAssessmentModule) (g : Payload) :
    (m.state ≠ INITIAL →
       ∃ d, save_answer m g = Except.ok (m, d) ∧ d.success = false) ∧
    (m.state ≠ ASSESSING →
       ∃ d, save_assessment m g = Except.ok (m, d) ∧ d.success = false) ∧
    (m.state ≠ POST_ASSESSMENT →
       ∃ d, save_hint m g = Except.ok (m, d) ∧ d.success = false) ∧
    (m.state = DONE → save_hint m g = Except.ok (m, out_of_sync_error m g)) := by
  refine ⟨?_, ?_, ?_, ?_⟩
  · intro h
    by_cases hatt : m.attempts > m.max_attempts
    · exact ⟨{ onlySuccess false with error := some "Too many attempts." },
        by simp [save_answer, hatt], rfl⟩
    · exact ⟨out_of_sync_error m g, by simp [save_answer, hatt, h], rfl⟩
  · intro h
    exact ⟨out_of_sync_error m g, by simp [save_assessment, h], rfl⟩
  · intro h
    exact ⟨out_of_sync_error m g, by simp [save_hint, h], rfl⟩
  · intro h
    have hne : m.state ≠ POST_ASSESSMENT := by
      rw [h]; decide
    simp [save_hint, hne]

/-- C3: the attempt guard of save_answer is strict: with
attempts > max_attempts the submission is blocked with the
too-many-attempts error, while with attempts = max_attempts (in INITIAL,
with a student_answer payload) it is still accepted. -/
theorem attempts_boundary (m : SelfAssessmentModule) (g : Payload) :
    (m.attempts > m.max_attempts →
       ∃ d, save_answer m g = Except.ok (m, d) ∧ d.success = false ∧
         d.error = some "Too many attempts.") ∧
    (m.attempts = m.max_attempts → m.state = INITIAL →
       ∀ ans, g.lookup "student_answer" = some ans →
       ∃ m1 d, save_answer m g = Except.ok (m1, d) ∧ d.success = true) := by
  constructor
  · intro h
    exact ⟨{ onlySuccess false with error := some "Too many attempts." },
      by simp [save_answer, h], rfl, rfl⟩
  · intro heq hstate ans hg
    have hatt2 : ¬ m.attempts > m.max_attempts := by omega
    refine ⟨change_state (new_history_entry m ans) ASSESSING,
      { onlySuccess true with
        rubric_html := some (RubricHtml.rendered false m.max_score) }, ?_, rfl⟩
    simp [save_answer, get_rubric_html, change_state, new_history_entry,
      hatt2, hstate, hg, INITIAL, ASSESSING]

/-- C2: in state ASSESSING, save_assessment with an assessment value
parsing to the integer k records k as the score of the latest
AttemptRecord and transitions to DONE when k equals max_score and to
POST_ASSESSMENT otherwise; a non-parsing value is a validation failure
that leaves the module unchanged. -/
theorem save_assessment_outcomes (m : SelfAssessmentModule) (g : Payload)
    (a : String) (hstate : m.state = ASSESSING)
    (hg : g.lookup "assessment" = some a) :
    (∀ (k : Int) (hs : List AttemptRecord) (r : AttemptRecord),
       pyInt a = some k → m.history = hs ++ [r] →
       ∃ d, save_assessment m g =
           Except.ok ({ m with
             state := if k = m.max_score then DONE else POST_ASSESSMENT,
             history := hs ++ [{ r with score := some k }] }, d) ∧
         d.success = true) ∧
    (pyInt a = none →
       save_assessment m g =
         Except.ok (m, { onlySuccess false with
           error := some "Non-integer score value" })) := by
  constructor
  · intro k hs r hk hhist
    have hset : set_last (fun rr => { rr with score := some k }) m.history
        = hs ++ [{ r with score := some k }] := by
      rw [hhist, set_last_append]
    by_cases hks : k = m.max_score
    · subst hks
      refine ⟨{ onlySuccess true with
        message_html :=
          some ("<div class=\x22save_message\x22>" ++ m.submit_message ++ "</div>"),
        allow_reset := some (decide (m.attempts < m.max_attempts)),
        state := some DONE }, ?_, rfl⟩
      simp [save_assessment, get_message_html, _allow_reset, change_state,
        record_latest_score, hstate, hg, hk, hset, DONE, ASSESSING]
    · refine ⟨{ onlySuccess true with
        hint_html := some (HintHtml.rendered m.hint_prompt "" false),
        state := some POST_ASSESSMENT }, ?_, rfl⟩
      simp [save_assessment, get_hint_html, change_state,
        record_latest_score, hstate, hg, hk, hks, hset,
        INITIAL, ASSESSING, POST_ASSESSMENT, DONE]
  · intro hk
    simp [save_assessment, hstate, hg, hk]

/-- C5: in state POST_ASSESSMENT, save_hint with a hint payload succeeds,
transitions to DONE and sets the hint field of the most recent
AttemptRecord to the supplied text, leaving the earlier records in
place. -/
theorem save_hint_post_assessment (m : SelfAssessmentModule) (g : Payload)
    (h : String) (hs : List AttemptRecord) (r : AttemptRecord)
    (hstate : m.state = POST_ASSESSMENT) (hg : g.lookup "hint" = some h)
    (hhist : m.history = hs ++ [r]) :
    ∃ d, save_hint m g =
        Except.ok ({ m with
          state := DONE,
          history := hs ++ [{ r with hint := some h }] }, d) ∧
      d.success = true := by
  have hset : set_last (fun rr => { rr with hint := some h }) m.history
      = hs ++ [{ r with hint := some h }] := by
    rw [hhist, set_last_append]
  refine ⟨{ onlySuccess true with
    message_html :=
      some ("<div class=\x22save_message\x22>" ++ m.submit_message ++ "</div>"),
    allow_reset := some (decide (m.attempts < m.max_attempts)) }, ?_, rfl⟩
  simp [save_hint, get_message_html, _allow_reset, change_state,
    record_latest_post_assessment, hstate, hg, hset, DONE, POST_ASSESSMENT]

/-- C6: handle_ajax answers any unknown action identifier with the bare
rejection and no state change; for each recognized action whose handler
returns a dictionary, it returns the handler's new state and that
dictionary in an envelope whose progress_changed flag compares progress
before and after the call, together with the post-call progress status
string. -/
theorem handle_ajax_router (m : SelfAssessmentModule) (dispatch : String)
    (g : Payload) :
    (dispatch ≠ "save_answer" ∧ dispatch ≠ "save_assessment" ∧
        dispatch ≠ "save_post_assessment" →
      handle_ajax m dispatch g = Except.ok (m, AjaxResponse.raw "Error")) ∧
    (∀ m1 d,
      (dispatch = "save_answer" ∧ save_answer m g = Except.ok (m1, d)) ∨
      (dispatch = "save_assessment" ∧ save_assessment m g = Except.ok (m1, d)) ∨
      (dispatch = "save_post_assessment" ∧ save_hint m g = Except.ok (m1, d)) →
      handle_ajax m dispatch g = Except.ok (m1, AjaxResponse.envelope d
        (decide (get_progress m1 ≠ get_progress m))
        (to_js_status_str (get_progress m1)))) := by
  constructor
  · intro h
    simp [handle_ajax, h.1, h.2.1, h.2.2]
  · rintro m1 d (⟨hd, hrun⟩ | ⟨hd, hrun⟩ | ⟨hd, hrun⟩) <;> subst hd <;>
      simp [handle_ajax, hrun]

/-- C7: every normal workflow misuse — an action in the wrong state, a
non-integer assessment value, the attempt limit exceeded — comes back as
an ordinary success-false result carrying an error message; no exception
escapes the call (the Except value is ok, never error). -/
theorem misuse_never_raises (m : SelfAssessmentModule) (g : Payload) :
    (m.attempts > m.max_attempts →
      ∃ d, save_answer m g = Except.ok (m, d) ∧ d.success = false ∧
        d.error.isSome = true) ∧
    (m.state ≠ INITIAL →
      ∃ d, save_answer m g = Except.ok (m, d) ∧ d.success = false ∧
        d.error.isSome = true) ∧
    (m.state ≠ ASSESSING →
      ∃ d, save_assessment m g = Except.ok (m, d) ∧ d.success = false ∧
        d.error.isSome = true) ∧
    (∀ a, m.state = ASSESSING → g.lookup "assessment" = some a →
      pyInt a = none →
      ∃ d, save_assessment m g = Except.ok (m, d) ∧ d.success = false ∧
        d.error.isSome = true) ∧
    (m.state ≠ POST_ASSESSMENT →
      ∃ d, save_hint m g = Except.ok (m, d) ∧ d.success = false ∧
        d.error.isSome = true) := by
  refine ⟨?_, ?_, ?_, ?_, ?_⟩
  · intro h
    exact ⟨{ onlySuccess false with error := some "Too many attempts." },
      by simp [save_answer, h], rfl, rfl⟩
  · intro h
    by_cases hatt : m.attempts > m.max_attempts
    · exact ⟨{ onlySuccess false with error := some "Too many attempts." },
        by simp [save_answer, hatt], rfl, rfl⟩
    · exact ⟨out_of_sync_error m g, by simp [save_answer, hatt, h], rfl, rfl⟩
  · intro h
    exact ⟨out_of_sync_error m g, by simp [save_assessment, h], rfl, rfl⟩
  · intro a hstate hg hk
    exact ⟨{ onlySuccess false with error := some "Non-integer score value" },
      by simp [save_assessment, hstate, hg, hk], rfl, rfl⟩
  · intro h
    exact ⟨out_of_sync_error m g, by simp [save_hint, h], rfl, rfl⟩

/-- C8: get_rubric_html and get_hint_html succeed on each of the four
defined states and raise the illegal-state ValueError on every state
value outside them. -/
theorem illegal_state_check (m : SelfAssessmentModule) :
    ((m.state = INITIAL ∨ m.state = ASSESSING ∨ m.state = POST_ASSESSMENT ∨
        m.state = DONE) →
      (get_rubric_html m).isOk = true ∧ (get_hint_html m).isOk = true) ∧
    (m.state ≠ INITIAL → m.state ≠ ASSESSING → m.state ≠ POST_ASSESSMENT →
        m.state ≠ DONE →
      (get_rubric_html m).isOk = false ∧ (get_hint_html m).isOk = false) := by
  constructor
  · rintro (h | h | h | h) <;>
      exact ⟨by simp [get_rubric_html, Except.isOk, Except.toBool, h,
          INITIAL, ASSESSING, POST_ASSESSMENT, DONE],
        by simp [get_hint_html, Except.isOk, Except.toBool, h,
          INITIAL, ASSESSING, POST_ASSESSMENT, DONE]⟩
  · intro h1 h2 h3 h4
    exact ⟨by simp [get_rubric_html, Except.isOk, Except.toBool, h1, h2, h3, h4],
      by simp [get_hint_html, Except.isOk, Except.toBool, h1, h2, h3, h4]⟩

/-- C9: definition_from_xml demands exactly one submitmessage child and
exactly one hintprompt child, raising ValueError when either is absent
or duplicated, and otherwise returns the dictionary of exactly those two
stringified fields. -/
theorem definition_from_xml_validates (xml : List XmlChild) :
    ((xpath xml "submitmessage").length = 1 ∧
        (xpath xml "hintprompt").length = 1 →
      definition_from_xml xml = Except.ok
        { submitmessage :=
            ((xpath xml "submitmessage").head?.map stringify_children).getD "",
          hintprompt :=
            ((xpath xml "hintprompt").head?.map stringify_children).getD "" }) ∧
    ((xpath xml "submitmessage").length ≠ 1 ∨
        (xpath xml "hintprompt").length ≠ 1 →
      ∃ e, definition_from_xml xml = Except.error e) := by
  constructor
  · intro h
    simp [definition_from_xml, h.1, h.2]
  · intro h
    by_cases hsm : (xpath xml "submitmessage").length = 1
    · rcases h with h | h
      · exact absurd hsm h
      · exact ⟨"Self assessment definition must include exactly one hintprompt tag",
          by simp [definition_from_xml, hsm, h]⟩
    · exact ⟨"Self assessment definition must include exactly one submitmessage tag",
        by simp [definition_from_xml, hsm]⟩

/-- A concrete instance in INITIAL with an empty history. -/
def sampleInitial : SelfAssessmentModule :=
  { state := INITIAL, history := [], attempts := 0, max_attempts := 2,
    max_score := 3, submit_message := "saved", hint_prompt := "give a hint" }

/-- A concrete instance in ASSESSING with one unscored record. -/
def sampleAssessing : SelfAssessmentModule :=
  { state := ASSESSING,
    history := [{ answer := "foo", score := none, hint := none }],
    attempts := 0, max_attempts := 2, max_score := 3,
    submit_message := "saved", hint_prompt := "give a hint" }

/-- A concrete instance in POST_ASSESSMENT with one scored record. -/
def samplePost : SelfAssessmentModule :=
  { state := POST_ASSESSMENT,
    history := [{ answer := "foo", score := some 1, hint := none }],
    attempts := 0, max_attempts := 2, max_score := 3,
    submit_message := "saved", hint_prompt := "give a hint" }

/-- A concrete instance in DONE with one completed record. -/
def sampleDone : SelfAssessmentModule :=
  { state := DONE,
    history := [{ answer := "foo", score := some 1, hint := some "try" }],
    attempts := 1, max_attempts := 2, max_score := 3,
    submit_message := "saved", hint_prompt := "give a hint" }

/-- A concrete instance sitting exactly at the attempt limit. -/
def sampleBoundary : SelfAssessmentModule :=
  { sampleInitial with attempts := 2 }

/-- A concrete instance past the attempt limit, not in INITIAL. -/
def sampleOver : SelfAssessmentModule :=
  { sampleDone with attempts := 3 }

/-- A concrete instance with a corrupted state value. -/
def sampleCorrupt : SelfAssessmentModule :=
  { sampleInitial with state := "broken" }

/-- A concrete well-formed XML definition. -/
def sampleXml : List XmlChild :=
  [{ tag := "submitmessage", body := "Saved." },
   { tag := "hintprompt", body := "Hint?" }]

/-- Witness for C1: save_hint repeated in DONE is rejected as out-of-sync
and leaves the instance untouched. -/
theorem wrong_state_rejected_witness :
    save_hint sampleDone [] =
      Except.ok (sampleDone, out_of_sync_error sampleDone []) :=
  (wrong_state_rejected sampleDone []).2.2.2 rfl

/-- Witness for C2: assessment "3" with max_score 3 moves ASSESSING to
DONE and records the score 3. -/
theorem save_assessment_outcomes_witness :
    ∃ d, save_assessment sampleAssessing [("assessment", "3")] =
        Except.ok ({ sampleAssessing with
          state := if (3 : Int) = sampleAssessing.max_score then DONE
            else POST_ASSESSMENT,
          history := [] ++ [{ answer := "foo", score := some 3, hint := none }] }, d) ∧
      d.success = true :=
  (save_assessment_outcomes sampleAssessing [("assessment", "3")] "3" rfl rfl).1
    3 [] { answer := "foo", score := none, hint := none } (by decide) rfl

/-- Witness for C3: at attempts = max_attempts = 2 the submission is
still accepted. -/
theorem attempts_boundary_witness :
    ∃ m1 d, save_answer sampleBoundary [("student_answer", "bar")] =
        Except.ok (m1, d) ∧ d.success = true :=
  (attempts_boundary sampleBoundary [("student_answer", "bar")]).2 rfl rfl
    "bar" rfl

/-- Witness for C4: a fresh INITIAL instance accepts "foo" and appends
one record. -/
theorem save_answer_initial_appends_witness :
    ∃ d, save_answer sampleInitial [("student_answer", "foo")] =
        Except.ok ({ sampleInitial with
          state := ASSESSING,
          history := sampleInitial.history ++
            [{ answer := "foo", score := none, hint := none }] }, d) ∧
      d.success = true :=
  save_answer_initial_appends sampleInitial [("student_answer", "foo")] "foo"
    (by decide) rfl rfl

/-- Witness for C5: a POST_ASSESSMENT instance accepts the hint "try"
and moves to DONE. -/
theorem save_hint_post_assessment_witness :
    ∃ d, save_hint samplePost [("hint", "try")] =
        Except.ok ({ samplePost with
          state := DONE,
          history := [] ++ [{ answer := "foo", score := some 1, hint := some "try" }] }, d) ∧
      d.success = true :=
  save_hint_post_assessment samplePost [("hint", "try")] "try" []
    { answer := "foo", score := some 1, hint := none } rfl rfl rfl

/-- Witness for C6: an unknown action identifier is rejected without any
state change. -/
theorem handle_ajax_router_witness :
    handle_ajax sampleInitial "bogus" [] =
      Except.ok (sampleInitial, AjaxResponse.raw "Error") :=
  (handle_ajax_router sampleInitial "bogus" []).1 ⟨by decide, by decide, by decide⟩

/-- Witness for C7: save_hint in DONE returns a structured failure
rather than raising. -/
theorem misuse_never_raises_witness :
    ∃ d, save_hint sampleDone [] = Except.ok (sampleDone, d) ∧
      d.success = false ∧ d.error.isSome = true :=
  (misuse_never_raises sampleDone []).2.2.2.2 (by decide)

/-- Witness for C8: a corrupted state value makes both view assemblers
raise. -/
theorem illegal_state_check_witness :
    (get_rubric_html sampleCorrupt).isOk = false ∧
      (get_hint_html sampleCorrupt).isOk = false :=
  (illegal_state_check sampleCorrupt).2 (by decide) (by decide) (by decide)
    (by decide)

/-- Witness for C9: a definition with exactly one of each tag loads into
the two-field dictionary. -/
theorem definition_from_xml_validates_witness :
    definition_from_xml sampleXml = Except.ok
      { submitmessage :=
          ((xpath sampleXml "submitmessage").head?.map stringify_children).getD "",
        hintprompt :=
          ((xpath sampleXml "hintprompt").head?.map stringify_children).getD "" } :=
  (definition_from_xml_validates sampleXml).1 ⟨rfl, rfl⟩

/-- Witness for C10: with attempts 3 over the limit 2, save_answer
rejects with the too-many-attempts error even though the state is DONE,
not INITIAL. -/
theorem save_answer_limit_guard_first_witness :
    save_answer sampleOver [] =
      Except.ok (sampleOver,
        { onlySuccess false with error := some "Too many attempts." }) :=
  save_answer_limit_guard_first sampleOver [] (by decide)
